import Mathlib

/-!
Verification of the CipherDock container manager (`CipherDock.py`).

The development shallowly embeds the parts of the program that the
specification's claims are about:

* the textual helpers (`_parse_size_to_bytes`, the mount-output parsing in
  `mount_container`, `_check_free_space`, `_verify_container_dir_on_partition`),
  modelled over `List Char` mirroring the Python string operations;
* the command-issuing flows (`create_container`, `mount_container`,
  `unmount_container`, the startup/exit cleanup sweeps), modelled as pure
  functions from the observed environment (open mappers, command-success
  oracle, dialog answers) to the list of external commands issued, the
  reported outcome, and the resulting observed system state.

External commands are opaque: an oracle `ok : … → Bool` tells whether a given
invocation exits with status zero (Python `subprocess.run(check=True)` raises
`CalledProcessError` exactly when the status is non-zero).
-/

namespace CipherDock

/-! ## Python string primitives over `List Char` -/

/-- The whitespace Python `str.strip` removes (ASCII part, which is all the
program ever meets). -/
def isPyWs (c : Char) : Bool :=
  c = ' ' || c = '\t' || c = '\n' || c = '\x0d' || c = '\x0b' || c = '\x0c'

/-- Python `s.strip()`: remove leading and trailing whitespace. -/
def pyStrip (s : List Char) : List Char :=
  ((s.dropWhile isPyWs).reverse.dropWhile isPyWs).reverse

/-- Does `sep` occur as a contiguous substring of `s`?  This is Python's
`sep in s` for a non-empty `sep`. -/
def containsSub (sep : List Char) : List Char → Bool
  | [] => sep.isEmpty
  | c :: rest => sep.isPrefixOf (c :: rest) || containsSub sep rest

/-- Split at the first occurrence of `sep`: Python `s.split(sep, 1)` when the
separator occurs, returning the parts before and after it; `none` when it does
not occur.  Only used with non-empty separators, as in the source. -/
def splitFirst (sep : List Char) : List Char → Option (List Char × List Char)
  | [] => none
  | c :: rest =>
    if sep.isPrefixOf (c :: rest) then some ([], (c :: rest).drop sep.length)
    else (splitFirst sep rest).map fun p => (c :: p.1, p.2)

/-- Python `s.replace(".", "")`: remove every period, not only a trailing
one. -/
def removeDots (s : List Char) : List Char :=
  s.filter fun c => c != '.'

/-- Split on every occurrence of a separator character, keeping empty pieces:
Python `s.split("\n")`. -/
def splitOnChar (sep : Char) : List Char → List (List Char)
  | [] => [[]]
  | c :: rest =>
    let r := splitOnChar sep rest
    if c = sep then [] :: r
    else match r with
      | [] => [[c]]
      | piece :: more => (c :: piece) :: more

/-- Helper for `splitWs`: `acc` holds the (reversed) word being read. -/
def splitWsAux : List Char → List Char → List (List Char)
  | [], acc => if acc.isEmpty then [] else [acc.reverse]
  | c :: rest, acc =>
    if isPyWs c then
      if acc.isEmpty then splitWsAux rest []
      else acc.reverse :: splitWsAux rest []
    else splitWsAux rest (c :: acc)

/-- Split on runs of whitespace discarding empty pieces: Python `s.split()`
with no argument. -/
def splitWs (s : List Char) : List (List Char) :=
  splitWsAux s []

/-! ## The mount-output parsing in `mount_container`

`CipherDock.py`, lines 290-295:

    mount_path = None
    if " at " in stdout:
        after_at = stdout.split(" at ", 1)[1]
        # Remove trailing period if present
        mount_path = after_at.replace(".", "").strip()

(`stdout` has already been `.strip()`-ed at line 287; the model takes the
stripped string.)  `mount_path = None` is modelled by `none`. -/

/-- The separator string `" at "`. -/
def sepAt : List Char := [' ', 'a', 't', ' ']

/-- The inline mount-path parser of `mount_container` (lines 291-295). -/
def parseMountPath (stdout : List Char) : Option (List Char) :=
  match splitFirst sepAt stdout with
  | none => none
  | some p => some (pyStrip (removeDots p.2))

/-! ## `_parse_size_to_bytes` (lines 547-564)

    s = s.strip().upper()
    mult = 1
    if s.endswith("G"): mult = 1024**3; s = s[:-1]
    elif s.endswith("M"): mult = 1024**2; s = s[:-1]
    elif s.endswith("K"): mult = 1024; s = s[:-1]
    try: val = float(s)
    except ValueError: return None
    return int(val * mult)

`float(s)` is modelled exactly over `ℚ` on plain decimal numerals (optional
sign, digits, optional single fractional part); the exotic inputs Python's
`float` additionally accepts (exponents, digit underscores, `inf`, `nan`) are
not modelled — on the decimal numerals that reach this function through the
size dialog the float value is exact, so `ℚ` arithmetic coincides with the
source's float arithmetic.  `int(…)` truncates toward zero. -/

/-- Value of a non-empty all-digit string. -/
def natOfDigits (s : List Char) : ℕ :=
  s.foldl (fun acc c => acc * 10 + (c.toNat - 48)) 0

/-- Split a numeral at its first `.` — the text before it and, when a period
is present, the text after it. -/
def splitDot : List Char → List Char × Option (List Char)
  | [] => ([], none)
  | c :: rest =>
    if c = '.' then ([], some rest)
    else
      let p := splitDot rest
      (c :: p.1, p.2)

/-- Parse an unsigned decimal numeral (`"500"`, `"1.5"`, `"2."`, `".25"`)
into an exact scaled integer: `some (n, e)` stands for the value
`n / 10 ^ e`; `none` on anything else. -/
def parseUnsignedDecimal (s : List Char) : Option (ℤ × ℕ) :=
  let p := splitDot s
  match p.2 with
  | none =>
    if !p.1.isEmpty && p.1.all Char.isDigit then some ((natOfDigits p.1 : ℤ), 0)
    else none
  | some frac =>
    if frac.contains '.' then none
    else if (!p.1.isEmpty || !frac.isEmpty)
        && p.1.all Char.isDigit && frac.all Char.isDigit then
      some ((natOfDigits p.1 * 10 ^ frac.length + natOfDigits frac : ℤ), frac.length)
    else none

/-- Python `float(s)` on decimal numerals: optional sign, then an unsigned
decimal numeral, the value represented exactly as `n / 10 ^ e`. -/
def parseDecimal : List Char → Option (ℤ × ℕ)
  | '+' :: rest => parseUnsignedDecimal rest
  | '-' :: rest => (parseUnsignedDecimal rest).map fun p => (-p.1, p.2)
  | s => parseUnsignedDecimal s

/-- `_parse_size_to_bytes` (lines 547-564).  The parsed value `n / 10 ^ e`
times the multiplier, truncated toward zero (Python `int(val * mult)`;
`Int.tdiv` truncates toward zero).  On the decimal numerals reaching this
function the Python float arithmetic is exact, so the exact model coincides
with the source. -/
def parse_size_to_bytes (s : List Char) : Option ℤ :=
  let s := (pyStrip s).map Char.toUpper
  let p : ℤ × List Char :=
    if s.getLast? = some 'G' then ((1024 : ℤ) ^ 3, s.dropLast)
    else if s.getLast? = some 'M' then ((1024 : ℤ) ^ 2, s.dropLast)
    else if s.getLast? = some 'K' then ((1024 : ℤ), s.dropLast)
    else (1, s)
  match parseDecimal p.2 with
  | none => none
  | some val => some ((val.1 * p.1).tdiv ((10 : ℤ) ^ val.2))

/-! ## `_check_free_space` (lines 522-545)

    size_bytes = self._parse_size_to_bytes(size_str)
    if size_bytes is None: …error "Invalid size format"…; return False
    try:
        df_out = subprocess.check_output(["df", "--block-size=1", directory], text=True)
        lines = df_out.strip().split("\n")
        if len(lines) < 2: return True
        cols = lines[1].split()
        if len(cols) < 5: return True
        available = int(cols[3])
        if size_bytes > available: …error…; return False
    except Exception as e: logging.warning(…)
    return True

The `df` invocation is an input: `none` models `check_output` raising (the
`except` swallows it), `some out` its captured stdout.  `int(cols[3])`
raising `ValueError` lands in the same `except`, hence also yields `True`. -/

/-- Python `int(s)` on a string: optional sign then non-empty digits
(`ValueError` is `none`). -/
def parsePyInt : List Char → Option ℤ
  | '+' :: rest =>
    if !rest.isEmpty && rest.all Char.isDigit then some (natOfDigits rest) else none
  | '-' :: rest =>
    if !rest.isEmpty && rest.all Char.isDigit then some (-(natOfDigits rest : ℤ)) else none
  | s =>
    if !s.isEmpty && s.all Char.isDigit then some (natOfDigits s) else none

/-- Outcome of `_check_free_space`: the boolean the source returns, plus which
dialog (if any) was shown, to distinguish the invalid-size error from the
not-enough-space error. -/
inductive FreeSpaceOutcome
  | invalidSize
  | notEnoughSpace
  | ok
  deriving DecidableEq, Repr

/-- The boolean `_check_free_space` returns for an outcome. -/
def FreeSpaceOutcome.toBool : FreeSpaceOutcome → Bool
  | .invalidSize => false
  | .notEnoughSpace => false
  | .ok => true

/-- `_check_free_space` (lines 522-545); `dfResult` is `none` when the `df`
subprocess raises. -/
def check_free_space (size_str : List Char) (dfResult : Option (List Char)) :
    FreeSpaceOutcome :=
  match parse_size_to_bytes size_str with
  | none => .invalidSize
  | some size_bytes =>
    match dfResult with
    | none => .ok
    | some out =>
      let lines := splitOnChar '\n' (pyStrip out)
      if lines.length < 2 then .ok
      else
        let cols := splitWs (lines.getD 1 [])
        if cols.length < 5 then .ok
        else
          match parsePyInt (cols.getD 3 []) with
          | none => .ok
          | some available => if size_bytes > available then .notEnoughSpace else .ok

/-! ## Observed system state and external commands

The flows below are modelled as pure functions from the observed environment
(dialog answers, command-success oracle, captured outputs) to the list of
external commands issued, the reported outcome, and the resulting observed
system state.  Strings are `List Char` throughout, written `Str`. -/

abbrev Str := List Char

/-- The `_mapper` suffix convention. -/
def sufMapper : Str := "_mapper".toList

/-- The device-mapper control device, excluded by `_detect_open_mappers`. -/
def controlName : Str := "control".toList

/-- `f"(name)_mapper"` — the mapper name derived from a container name. -/
def mapperName (name : Str) : Str := name ++ sufMapper

/-- Observed system state: the entries of `/dev/mapper` and the set of mapper
names whose device is currently mounted. -/
structure SysState where
  mapperEntries : List Str
  mounts : List Str
  deriving DecidableEq

/-- `_detect_open_mappers` (lines 400-406): list `/dev/mapper`, keep names
ending in `_mapper` other than `control`. -/
def detect_open_mappers (st : SysState) : List Str :=
  st.mapperEntries.filter fun m => sufMapper.isSuffixOf m && m != controlName

/-- Effect on a listing of a device appearing (`cryptsetup open` success). -/
def insertNew (x : Str) (l : List Str) : List Str :=
  if x ∈ l then l else x :: l

/-- The external commands the program runs via `subprocess`. -/
inductive Cmd
  | truncate (name size : Str)      -- truncate -s size container_path
  | luksFormat (name : Str)         -- cryptsetup -q luksFormat --type luks2 container_path
  | cryptOpen (name : Str)          -- cryptsetup open container_path name_mapper
  | mkfsExt4 (name : Str)           -- mkfs.ext4 /dev/mapper/name_mapper
  | e2label (name : Str)            -- e2label /dev/mapper/name_mapper name
  | cryptClose (mapper : Str)       -- cryptsetup close mapper
  | udisksMount (mapper : Str)      -- sudo -u USER udisksctl mount -b /dev/mapper/mapper
  | udisksUnmount (mapper : Str)    -- sudo -u USER udisksctl unmount -b /dev/mapper/mapper
  | chownR (path : Str)             -- chown -R USER:USER path
  | dfQuery                         -- df --block-size=1 container_dir
  deriving DecidableEq

/-- Steps of the `create_container` flow that are visible side effects or
dialogs, in addition to external commands. -/
inductive Event
  | mkdirContainerDir               -- os.makedirs(container_dir, exist_ok=True)
  | readMountTable                  -- open("/proc/mounts") and scan it
  | askName | askSize | askPassphrase
  | confirmCreate                   -- messagebox.askyesno("Confirm", …)
  | cmd (c : Cmd)
  deriving DecidableEq

/-! ## `_verify_container_dir_on_partition` (lines 408-449)

    if not os.path.exists(cdir):
        try: os.makedirs(cdir, exist_ok=True)
        except Exception: …error…; return False
    mountpoints = []
    with open("/proc/mounts") as f:
        for line in f:
            parts = line.split()
            if len(parts) < 2: continue
            dev, mntp = parts[0], parts[1]
            if dev == part_dev: mountpoints.append(mntp)
    if not mountpoints: …error…; return False
    real_cdir = os.path.realpath(cdir)
    is_ok = any(os.path.commonpath([mnt, real_cdir]) == mnt for mnt in mountpoints)
    if not is_ok: …error…; return False
    return True

`os.path.commonpath([mnt, real]) == mnt` on the absolute, normalised paths
found in `/proc/mounts` holds exactly when the path components of `mnt` are a
prefix of those of `real`. -/

/-- The mount points `/proc/mounts` records for `partDev`. -/
def mountpointsOf (procMounts : List Str) (partDev : Str) : List Str :=
  procMounts.filterMap fun line =>
    let parts := splitWs line
    if parts.length < 2 then none
    else if parts.getD 0 [] = partDev then some (parts.getD 1 []) else none

/-- Path components (`"/run/media"` ↦ `["run", "media"]`). -/
def pathComponents (p : Str) : List Str :=
  (splitOnChar '/' p).filter fun c => !c.isEmpty

/-- `os.path.commonpath([mnt, real]) == mnt` on absolute normalised paths. -/
def commonpathEq (mnt real : Str) : Bool :=
  (pathComponents mnt).isPrefixOf (pathComponents real)

/-- Inputs `_verify_container_dir_on_partition` observes. -/
structure VerifyEnv where
  dirExists : Bool          -- os.path.exists(container_dir)
  mkdirOk : Bool            -- whether os.makedirs succeeds
  procMounts : List Str     -- the lines of /proc/mounts
  partDev : Str             -- CONFIG["PARTITION_DEVICE"]
  realCdir : Str            -- os.path.realpath(container_dir)

/-- `_verify_container_dir_on_partition`: the side-effect/read events it
performs, in order, and the boolean it returns. -/
def verify_container_dir_on_partition (env : VerifyEnv) : List Event × Bool :=
  let pre : List Event := if env.dirExists then [] else [.mkdirContainerDir]
  if !env.dirExists && !env.mkdirOk then (pre, false)
  else
    let events := pre ++ [.readMountTable]
    let mps := mountpointsOf env.procMounts env.partDev
    if mps.isEmpty then (events, false)
    else (events, mps.any fun mnt => commonpathEq mnt env.realCdir)

/-! ## `create_container` (lines 145-209) -/

/-- Inputs the `create_container` flow observes.  A dialog answer of `none`
models cancellation (or the empty answer, which the source treats the same
way: `if not name: return`). -/
structure CreateEnv where
  verify : VerifyEnv
  nameInput : Option Str
  sizeInput : Option Str
  passInput : Option Str
  fileExists : Bool            -- os.path.exists(container_path)
  dfResult : Option Str        -- stdout of df, none when check_output raises
  confirmed : Bool             -- the askyesno("Confirm", …) answer
  ok : Cmd → Bool              -- exit-status-zero oracle for external commands

inductive CreateOutcome
  | dirNotVerified | cancelled | alreadyExists | invalidSize | noSpace
  | stepFailed (c : Cmd)       -- except CalledProcessError: "Failed to create container"
  | success
  deriving DecidableEq

/-- The six-step command sequence of `create_container` (lines 181-202). -/
def fullCreateSeq (name size : Str) : List Cmd :=
  [.truncate name size, .luksFormat name, .cryptOpen name,
   .mkfsExt4 name, .e2label name, .cryptClose (mapperName name)]

/-- The `try:` block of `create_container` (lines 181-209): run the six steps
in order; `check=True` makes the first non-zero step raise, aborting the rest
(the `except` only reports).  A successful `cryptsetup open` adds the mapper
to `/dev/mapper`; a successful `cryptsetup close` removes it. -/
def create_steps (name size : Str) (ok : Cmd → Bool) (st : SysState) :
    List Cmd × CreateOutcome × SysState :=
  let m := mapperName name
  let c1 := Cmd.truncate name size
  if !ok c1 then ([c1], .stepFailed c1, st) else
  let c2 := Cmd.luksFormat name
  if !ok c2 then ([c1, c2], .stepFailed c2, st) else
  let c3 := Cmd.cryptOpen name
  if !ok c3 then ([c1, c2, c3], .stepFailed c3, st) else
  let st1 : SysState := { st with mapperEntries := insertNew m st.mapperEntries }
  let c4 := Cmd.mkfsExt4 name
  if !ok c4 then ([c1, c2, c3, c4], .stepFailed c4, st1) else
  let c5 := Cmd.e2label name
  if !ok c5 then ([c1, c2, c3, c4, c5], .stepFailed c5, st1) else
  let c6 := Cmd.cryptClose m
  if !ok c6 then ([c1, c2, c3, c4, c5, c6], .stepFailed c6, st1) else
  ([c1, c2, c3, c4, c5, c6], .success, { st1 with mapperEntries := st1.mapperEntries.erase m })

/-- The full `create_container` flow (lines 145-209): verify the directory,
ask name/size/passphrase, refuse an existing file, check free space, confirm,
then run the command sequence. -/
def create_container (env : CreateEnv) (st : SysState) :
    List Event × CreateOutcome × SysState :=
  let v := verify_container_dir_on_partition env.verify
  if !v.2 then (v.1, .dirNotVerified, st)
  else match env.nameInput with
  | none => (v.1 ++ [.askName], .cancelled, st)
  | some name =>
    match env.sizeInput with
    | none => (v.1 ++ [.askName, .askSize], .cancelled, st)
    | some size =>
      match env.passInput with
      | none => (v.1 ++ [.askName, .askSize, .askPassphrase], .cancelled, st)
      | some _pass =>
        let evts := v.1 ++ [.askName, .askSize, .askPassphrase]
        if env.fileExists then (evts, .alreadyExists, st)
        else
          match check_free_space size env.dfResult with
          | .invalidSize => (evts, .invalidSize, st)
          | .notEnoughSpace => (evts ++ [.cmd .dfQuery], .noSpace, st)
          | .ok =>
            let evts := evts ++ [.cmd .dfQuery]
            if !env.confirmed then (evts ++ [.confirmCreate], .cancelled, st)
            else
              let r := create_steps name size env.ok st
              (evts ++ [.confirmCreate] ++ r.1.map .cmd, r.2.1, r.2.2)

/-! ## `mount_container` (lines 231-311) -/

/-- `os.path.splitext(f)[0]`: everything before the last period, except that
periods leading the name do not start an extension. -/
def splitextBase (f : Str) : Str :=
  let idxs := (List.range f.length).filter fun i => f.getD i ' ' = '.'
  match idxs.getLast? with
  | none => f
  | some i => if (f.take i).all (fun c => c = '.') then f else f.take i

/-- Inputs the `mount_container` flow observes. -/
structure MountEnv where
  verifyOk : Bool              -- result of _verify_container_dir_on_partition
  containerFiles : List Str    -- _get_container_files()
  choice : Option Str          -- the file picked in the dialog
  passInput : Option Str
  confirmed : Bool
  ok : Cmd → Bool
  mountStdout : Str            -- stdout captured from udisksctl mount
  isDir : Str → Bool           -- os.path.isdir oracle

inductive MountOutcome
  | dirNotVerified | noContainers | cancelled
  | alreadyOpen                  -- "Already Open" warning, line 253
  | mountFailed (c : Cmd)        -- except CalledProcessError: "Mount failed", line 309
  | mountedChowned (path : Str)  -- "Success" info, line 300
  | mountedPathUnknown           -- "Mount Path Not Found" warning, line 303
  deriving DecidableEq

/-- The `mount_container` flow: pick a container, refuse if its mapper is
already open, unlock as root, mount as the user, parse the mount path, chown
it when it is a directory.  `cryptsetup open` success adds the mapper to
`/dev/mapper`; `udisksctl mount` success adds a mount for it. -/
def mount_container (env : MountEnv) (st : SysState) :
    List Cmd × MountOutcome × SysState :=
  if !env.verifyOk then ([], .dirNotVerified, st)
  else if env.containerFiles.isEmpty then ([], .noContainers, st)
  else match env.choice with
  | none => ([], .cancelled, st)
  | some cfile =>
    let base := splitextBase cfile
    let m := mapperName base
    if m ∈ detect_open_mappers st then ([], .alreadyOpen, st)
    else match env.passInput with
    | none => ([], .cancelled, st)
    | some _pass =>
      if !env.confirmed then ([], .cancelled, st)
      else
        let c1 := Cmd.cryptOpen base
        if !env.ok c1 then ([c1], .mountFailed c1, st)
        else
          let st1 : SysState := { st with mapperEntries := insertNew m st.mapperEntries }
          let c2 := Cmd.udisksMount m
          if !env.ok c2 then ([c1, c2], .mountFailed c2, st1)
          else
            let st2 : SysState := { st1 with mounts := insertNew m st1.mounts }
            match parseMountPath (pyStrip env.mountStdout) with
            | some p =>
              if !p.isEmpty && env.isDir p then
                let c3 := Cmd.chownR p
                if !env.ok c3 then ([c1, c2, c3], .mountFailed c3, st2)
                else ([c1, c2, c3], .mountedChowned p, st2)
              else ([c1, c2], .mountedPathUnknown, st2)
            | none => ([c1, c2], .mountedPathUnknown, st2)

/-! ## `unmount_container` (lines 316-349) -/

structure UnmountEnv where
  choice : Option Str          -- the mapper picked in the dialog
  confirmed : Bool
  ok : Cmd → Bool

inductive UnmountOutcome
  | noneOpen | cancelled
  | unmountStepFailed (c : Cmd)  -- except CalledProcessError: "Failed to unmount"
  | success
  deriving DecidableEq

/-- The `unmount_container` flow: unmount as the user (`check=True`), then
close as root — an unmount failure raises before `cryptsetup close` runs. -/
def unmount_container (env : UnmountEnv) (st : SysState) :
    List Cmd × UnmountOutcome × SysState :=
  if (detect_open_mappers st).isEmpty then ([], .noneOpen, st)
  else match env.choice with
  | none => ([], .cancelled, st)
  | some m =>
    if !env.confirmed then ([], .cancelled, st)
    else
      let c1 := Cmd.udisksUnmount m
      if !env.ok c1 then ([c1], .unmountStepFailed c1, st)
      else
        let st1 : SysState := { st with mounts := st.mounts.erase m }
        let c2 := Cmd.cryptClose m
        if !env.ok c2 then ([c1, c2], .unmountStepFailed c2, st1)
        else ([c1, c2], .success, { st1 with mapperEntries := st1.mapperEntries.erase m })

/-! ## The cleanup sweeps (`_startup_cleanup_check`, lines 354-373, and
`_on_exit`, lines 378-395)

    for mapper in leftover:
        subprocess.run([…, "udisksctl", "unmount", "-b", dev_mapper], check=False, env=env)
        subprocess.run(["cryptsetup", "close", mapper], check=False)
        logging.info(f"Closed leftover mapper (mapper)")

Both commands run with `check=False`: their exit statuses are discarded, and
the loop logs the fixed line and moves on whatever happened. -/

/-- State effect of one sweep iteration: each of the two commands takes
effect exactly when it succeeds. -/
def sweep_step (ok : Cmd → Bool) (st : SysState) (m : Str) : SysState :=
  let st1 : SysState :=
    if ok (Cmd.udisksUnmount m) then { st with mounts := st.mounts.erase m } else st
  if ok (Cmd.cryptClose m) then { st1 with mapperEntries := st1.mapperEntries.erase m } else st1

/-- The sweep loop: commands issued, audit-log lines written, final state.
`logLinePre` is the prefix of the per-mapper log line (`"Closed leftover
mapper "` at startup, `"Auto-closed leftover mapper "` on exit). -/
def sweep (logLinePre : Str) (leftover : List Str) (ok : Cmd → Bool) (st : SysState) :
    List Cmd × List Str × SysState :=
  match leftover with
  | [] => ([], [], st)
  | m :: rest =>
    let r := sweep logLinePre rest ok (sweep_step ok st m)
    (Cmd.udisksUnmount m :: Cmd.cryptClose m :: r.1, (logLinePre ++ m) :: r.2.1, r.2.2)

def startupLogLinePre : Str := "Closed leftover mapper ".toList

def exitLogLinePre : Str := "Auto-closed leftover mapper ".toList

/-- `_startup_cleanup_check` (lines 354-373). -/
def startup_cleanup_check (doCleanup : Bool) (ok : Cmd → Bool) (st : SysState) :
    List Cmd × List Str × SysState :=
  let leftover := detect_open_mappers st
  if leftover.isEmpty then ([], [], st)
  else if !doCleanup then ([], [], st)
  else sweep startupLogLinePre leftover ok st

/-- The cleanup part of `_on_exit` (lines 378-392). -/
def on_exit (doCleanup : Bool) (ok : Cmd → Bool) (st : SysState) :
    List Cmd × List Str × SysState :=
  let leftover := detect_open_mappers st
  if leftover.isEmpty then ([], [], st)
  else if !doCleanup then ([], [], st)
  else sweep exitLogLinePre leftover ok st

/-! ## Helper lemmas -/

lemma mem_insertNew_self (x : Str) (l : List Str) : x ∈ insertNew x l := by
  unfold insertNew
  split <;> simp_all

lemma insertNew_of_not_mem {x : Str} {l : List Str} (h : x ∉ l) :
    insertNew x l = x :: l := by
  unfold insertNew
  simp [h]

lemma sufMapper_isSuffixOf_mapperName (n : Str) :
    sufMapper.isSuffixOf (mapperName n) = true := by
  rw [List.isSuffixOf_iff_suffix]
  exact List.suffix_append n sufMapper

lemma mapperName_ne_control (n : Str) : mapperName n ≠ controlName := by
  intro h
  have hlen := congrArg List.length h
  have h7 : sufMapper.length = 7 := by decide
  have hc7 : controlName.length = 7 := by decide
  rw [mapperName, List.length_append, h7, hc7] at hlen
  have hn : n = [] := List.length_eq_zero.mp (by omega)
  rw [mapperName, hn, List.nil_append] at h
  exact absurd h (by decide)

lemma splitFirst_eq_none {sep : List Char} :
    ∀ s : List Char, containsSub sep s = false → splitFirst sep s = none := by
  intro s
  induction s with
  | nil => intro _; rfl
  | cons c rest ih =>
    intro h
    unfold containsSub at h
    simp only [Bool.or_eq_false_iff] at h
    unfold splitFirst
    rw [if_neg (by simp [h.1]), ih h.2]
    rfl

lemma splitFirst_append {sep : List Char} (hsep : sep ≠ []) :
    ∀ a b : List Char,
      (∀ i < a.length, sep.isPrefixOf ((a ++ (sep ++ b)).drop i) = false) →
      splitFirst sep (a ++ (sep ++ b)) = some (a, b) := by
  intro a
  induction a with
  | nil =>
    intro b _
    simp only [List.nil_append]
    cases sep with
    | nil => exact absurd rfl hsep
    | cons c cs =>
      have hpre : (c :: cs).isPrefixOf ((c :: cs) ++ b) = true := by
        rw [List.isPrefixOf_iff_prefix]
        exact List.prefix_append (c :: cs) b
      have hdrop : List.drop (c :: cs).length ((c :: cs) ++ b) = b :=
        List.drop_left (c :: cs) b
      simp only [List.cons_append] at hpre hdrop ⊢
      simp [splitFirst, hpre, hdrop]
  | cons x xs ih =>
    intro b h
    have h0 := h 0 (by simp)
    show splitFirst sep (x :: (xs ++ (sep ++ b))) = some (x :: xs, b)
    unfold splitFirst
    rw [if_neg, ih b]
    · rfl
    · intro i hi
      have := h (i + 1) (by simpa using Nat.succ_lt_succ hi)
      simpa using this
    · simp only [List.drop_zero, List.cons_append] at h0
      simp [h0]

lemma removeDots_append_dot {path : List Char} (h : '.' ∉ path) :
    removeDots (path ++ ['.']) = path := by
  unfold removeDots
  rw [List.filter_append]
  have h1 : path.filter (fun c => c != '.') = path := by
    refine List.filter_eq_self.mpr ?_
    intro c hc
    simp only [bne_iff_ne, ne_eq]
    exact fun hcc => h (hcc ▸ hc)
  have h2 : List.filter (fun c => c != '.') ['.'] = [] := by decide
  rw [h1, h2, List.append_nil]

lemma sweep_cmds_eq (pre : Str) (ok : Cmd → Bool) :
    ∀ (leftover : List Str) (st : SysState),
      (sweep pre leftover ok st).1
        = leftover.flatMap fun m => [Cmd.udisksUnmount m, Cmd.cryptClose m] := by
  intro leftover
  induction leftover with
  | nil => intro st; rfl
  | cons m rest ih =>
    intro st
    simp [sweep, ih]

lemma sweep_log_eq (pre : Str) (ok : Cmd → Bool) :
    ∀ (leftover : List Str) (st : SysState),
      (sweep pre leftover ok st).2.1 = leftover.map fun m => pre ++ m := by
  intro leftover
  induction leftover with
  | nil => intro st; rfl
  | cons m rest ih =>
    intro st
    simp [sweep, ih]

/-! ## Claims -/

/-- C8: `_parse_size_to_bytes` maps `"500M"` to `524288000` bytes and `"2G"`
to `2147483648` bytes, and a string with no numeric value such as `"abc"`
yields `None`, upon which `_check_free_space` reports the invalid-size error
(rather than crashing) for any `df` outcome. -/
theorem size_parsing_spec :
    parse_size_to_bytes "500M".toList = some 524288000
    ∧ parse_size_to_bytes "2G".toList = some 2147483648
    ∧ parse_size_to_bytes "abc".toList = none
    ∧ ∀ dfResult, check_free_space "abc".toList dfResult = .invalidSize := by
  refine ⟨by decide, by decide, by decide, fun dfResult => ?_⟩
  unfold check_free_space
  rw [show parse_size_to_bytes "abc".toList = none from by decide]

/-- C9: when the requested size parses, a failing `df` invocation, an output
with fewer than two lines, or a second line with fewer than five columns all
make `_check_free_space` return success (`True`), so the free-space
precondition is enforced only when the query succeeds and its output
parses. -/
theorem check_free_space_lenient (size : Str) (dfResult : Option Str) (n : ℤ)
    (hn : parse_size_to_bytes size = some n) :
    (dfResult = none → check_free_space size dfResult = .ok)
    ∧ (∀ out, dfResult = some out →
        (splitOnChar '\n' (pyStrip out)).length < 2 →
        check_free_space size dfResult = .ok)
    ∧ (∀ out, dfResult = some out →
        (splitWs ((splitOnChar '\n' (pyStrip out)).getD 1 [])).length < 5 →
        check_free_space size dfResult = .ok) := by
  refine ⟨?_, ?_, ?_⟩
  · rintro rfl
    unfold check_free_space
    rw [hn]
  · rintro out rfl h
    unfold check_free_space
    rw [hn]
    simp [h]
  · rintro out rfl h
    unfold check_free_space
    rw [hn]
    rw [List.getD_eq_getElem?_getD] at h
    by_cases h2 : (splitOnChar '\n' (pyStrip out)).length < 2
    · simp [h2]
    · simp [h2, h]

/-- C9 witness: a concrete run — valid size `"1K"`, `df` raising — returns
success. -/
theorem check_free_space_lenient_witness :
    check_free_space "1K".toList none = .ok :=
  (check_free_space_lenient "1K".toList none 1024 (by decide)).1 rfl

/-- C1: when the flow of `mount_container` reaches the mapper check and the
container's mapper name is already among the observed open mappers, the
operation refuses with the "Already Open" warning, issues no external
command, and leaves the observed state unchanged — so a second `MapperHandle`
for the same container is never created. -/
theorem mount_refuses_open_mapper (env : MountEnv) (st : SysState) (cfile : Str)
    (h1 : env.verifyOk = true)
    (h2 : env.containerFiles.isEmpty = false)
    (h3 : env.choice = some cfile)
    (h4 : mapperName (splitextBase cfile) ∈ detect_open_mappers st) :
    mount_container env st = ([], .alreadyOpen, st) := by
  unfold mount_container
  rw [h1, h2, h3]
  simp [h4]

/-- C1 witness: with `foo_mapper` present in `/dev/mapper`, mounting
`foo.img` refuses and issues no command. -/
theorem mount_refuses_open_mapper_witness :
    mount_container
      ⟨true, ["foo.img".toList], some "foo.img".toList, none, false,
        fun _ => false, [], fun _ => false⟩
      ⟨["foo_mapper".toList], []⟩
      = ([], .alreadyOpen, ⟨["foo_mapper".toList], []⟩) :=
  mount_refuses_open_mapper _ _ _ rfl rfl rfl (by decide)

/-- C6 counterexample: on a pattern string `"Mounted <device> at <path>."`
whose `<path>` contains an interior period, the parser does not extract
`<path>` with only the trailing period stripped: `replace(".", "")` removes
every period. -/
theorem parse_mount_path_counterexample :
    parseMountPath "Mounted /dev/mapper/a_mapper at /run/media/alice/my.data.".toList
      = some "/run/media/alice/mydata".toList
    ∧ "/run/media/alice/mydata".toList ≠ "/run/media/alice/my.data".toList := by
  exact ⟨by decide, by decide⟩

/-- C6 amended: a string containing no `" at "` parses to `none` (no crash);
on a pattern string `"Mounted <device> at <path>."` whose first `" at "`
occurrence is the separator, the parser yields the text after it with every
period removed and whitespace stripped — equal to `<path>` whenever `<path>`
contains no period and no surrounding whitespace (so the trailing period is
stripped, but interior periods would be removed as well). -/
theorem parse_mount_path_amended :
    (∀ s : Str, containsSub sepAt s = false → parseMountPath s = none)
    ∧ ∀ dev path : Str,
        (∀ i < ("Mounted ".toList ++ dev).length,
            sepAt.isPrefixOf
              ((("Mounted ".toList ++ dev) ++ (sepAt ++ (path ++ ['.']))).drop i)
              = false) →
        '.' ∉ path →
        pyStrip path = path →
        parseMountPath (("Mounted ".toList ++ dev) ++ (sepAt ++ (path ++ ['.'])))
          = some path := by
  constructor
  · intro s h
    unfold parseMountPath
    rw [splitFirst_eq_none s h]
  · intro dev path hEarly hdot htrim
    unfold parseMountPath
    rw [splitFirst_append (by decide) _ _ hEarly]
    show some (pyStrip (removeDots (path ++ ['.']))) = some path
    rw [removeDots_append_dot hdot, htrim]

/-- C6 witness: the spec's example, `"Mounted /dev/mapper/foo_mapper at
/run/media/alice/foo."`, parses to `/run/media/alice/foo`. -/
theorem parse_mount_path_amended_witness :
    parseMountPath (("Mounted ".toList ++ "/dev/mapper/foo_mapper".toList)
        ++ (sepAt ++ ("/run/media/alice/foo".toList ++ ['.'])))
      = some "/run/media/alice/foo".toList :=
  parse_mount_path_amended.2 "/dev/mapper/foo_mapper".toList
    "/run/media/alice/foo".toList (by decide) (by decide) (by decide)

/-- Success oracle that fails exactly the `mkfs.ext4` step of creating
`vault`. -/
def vaultMkfsFails : Cmd → Bool := fun c => c != Cmd.mkfsExt4 "vault".toList

/-- C2 counterexample: when `mkfs.ext4` fails during `create_container`, the
flow aborts — but `vault_mapper`, opened two steps earlier, remains in
`/dev/mapper`: a mapper *was* exposed by the failed create. -/
theorem create_leaves_mapper_on_mkfs_failure :
    (create_steps "vault".toList "100M".toList vaultMkfsFails ⟨[], []⟩).2.1
      = .stepFailed (Cmd.mkfsExt4 "vault".toList)
    ∧ mapperName "vault".toList
        ∈ (create_steps "vault".toList "100M".toList vaultMkfsFails ⟨[], []⟩).2.2.mapperEntries := by
  exact ⟨by decide, by decide⟩

/-- C2 amended: a failing create aborts at the first failing step (the
commands issued are exactly the successful prefix plus the failing command —
no later step, no rollback command), and after it returns the container's
mapper is exposed exactly when the `cryptsetup open` step had already run and
succeeded (failures at or before `open` expose nothing; failures at `mkfs`,
`e2label` or `close` leave the mapper open for the next cleanup sweep). -/
theorem create_failure_aborts_amended (name size : Str) (ok : Cmd → Bool)
    (st : SysState) (c : Cmd)
    (hm : mapperName name ∉ st.mapperEntries)
    (hfail : (create_steps name size ok st).2.1 = .stepFailed c) :
    ok c = false
    ∧ (create_steps name size ok st).1 = (fullCreateSeq name size).takeWhile ok ++ [c]
    ∧ (mapperName name ∈ (create_steps name size ok st).2.2.mapperEntries
        ↔ (Cmd.cryptOpen name ∈ (create_steps name size ok st).1
            ∧ ok (Cmd.cryptOpen name) = true)) := by
  by_cases h1 : ok (Cmd.truncate name size)
  · by_cases h2 : ok (Cmd.luksFormat name)
    · by_cases h3 : ok (Cmd.cryptOpen name)
      · by_cases h4 : ok (Cmd.mkfsExt4 name)
        · by_cases h5 : ok (Cmd.e2label name)
          · by_cases h6 : ok (Cmd.cryptClose (mapperName name))
            · simp [create_steps, h1, h2, h3, h4, h5, h6] at hfail
            · simp only [Bool.not_eq_true] at h6
              simp [create_steps, h1, h2, h3, h4, h5, h6] at hfail
              subst hfail
              simp [create_steps, fullCreateSeq, h1, h2, h3, h4, h5, h6,
                mem_insertNew_self]
          · simp only [Bool.not_eq_true] at h5
            simp [create_steps, h1, h2, h3, h4, h5] at hfail
            subst hfail
            simp [create_steps, fullCreateSeq, h1, h2, h3, h4, h5,
              mem_insertNew_self]
        · simp only [Bool.not_eq_true] at h4
          simp [create_steps, h1, h2, h3, h4] at hfail
          subst hfail
          simp [create_steps, fullCreateSeq, h1, h2, h3, h4, mem_insertNew_self]
      · simp only [Bool.not_eq_true] at h3
        simp [create_steps, h1, h2, h3] at hfail
        subst hfail
        simp [create_steps, fullCreateSeq, h1, h2, h3, hm]
    · simp only [Bool.not_eq_true] at h2
      simp [create_steps, h1, h2] at hfail
      subst hfail
      simp [create_steps, fullCreateSeq, h1, h2, hm]
  · simp only [Bool.not_eq_true] at h1
    simp [create_steps, h1] at hfail
    subst hfail
    simp [create_steps, fullCreateSeq, h1, hm]

/-- C2 witness: the amended statement evaluated on the concrete failing
create of `vault` (failure at `mkfs.ext4`). -/
theorem create_failure_aborts_amended_witness :
    (create_steps "vault".toList "100M".toList vaultMkfsFails ⟨[], []⟩).1
      = (fullCreateSeq "vault".toList "100M".toList).takeWhile vaultMkfsFails
          ++ [Cmd.mkfsExt4 "vault".toList] :=
  (create_failure_aborts_amended "vault".toList "100M".toList vaultMkfsFails
    ⟨[], []⟩ (Cmd.mkfsExt4 "vault".toList) (by decide) (by decide)).2.1

/-- The spec's sweep scenario: two leftover mappers with `a_mapper` mounted
nowhere, so unmounting it fails; everything else succeeds. -/
def sweepOkFailA : Cmd → Bool := fun c => c != Cmd.udisksUnmount "a_mapper".toList

def sweepTwo : List Str := ["a_mapper".toList, "b_mapper".toList]

def sweepSt0 : SysState := ⟨["a_mapper".toList, "b_mapper".toList], ["b_mapper".toList]⟩

/-- C5 counterexample: in the spec's scenario (unmount of `a_mapper` fails,
its close succeeds, `b_mapper` fully succeeds) the sweep does process both
mappers, but it reports and collects nothing about the failure: its command
trace and its audit-log output are identical to those of a run in which every
command succeeds, and the log unconditionally records both mappers as
closed. -/
theorem sweep_reports_no_failure :
    sweepOkFailA (Cmd.udisksUnmount "a_mapper".toList) = false
    ∧ (sweep startupLogLinePre sweepTwo sweepOkFailA sweepSt0).1
        = (sweep startupLogLinePre sweepTwo (fun _ => true) sweepSt0).1
    ∧ (sweep startupLogLinePre sweepTwo sweepOkFailA sweepSt0).2.1
        = (sweep startupLogLinePre sweepTwo (fun _ => true) sweepSt0).2.1
    ∧ (sweep startupLogLinePre sweepTwo sweepOkFailA sweepSt0).2.1
        = [startupLogLinePre ++ "a_mapper".toList,
           startupLogLinePre ++ "b_mapper".toList] := by
  exact ⟨by decide, by decide, by decide, by decide⟩

/-- C5 amended: the sweep attempts unmount then close for every mapper in the
list whatever the outcomes of earlier items (no short-circuit), and per-item
failures are suppressed rather than collected: the audit log is the fixed
per-mapper line, independent of any failure. -/
theorem sweep_processes_all_amended (pre : Str) (leftover : List Str)
    (ok : Cmd → Bool) (st : SysState) :
    (sweep pre leftover ok st).1
      = (leftover.flatMap fun m => [Cmd.udisksUnmount m, Cmd.cryptClose m])
    ∧ (sweep pre leftover ok st).2.1 = leftover.map fun m => pre ++ m :=
  ⟨sweep_cmds_eq pre ok leftover st, sweep_log_eq pre ok leftover st⟩

/-- Success oracle that fails exactly the `chown` of `/run/media/alice/v`. -/
def chownFailOk : Cmd → Bool := fun c => c != Cmd.chownR "/run/media/alice/v".toList

/-- Environment for mounting `v.img` in which unlock and mount succeed, the
mount path parses to a directory, and only the `chown` fails. -/
def chownFailEnv : MountEnv :=
  ⟨true, ["v.img".toList], some "v.img".toList, some "pw".toList, true, chownFailOk,
   "Mounted /dev/mapper/v_mapper at /run/media/alice/v.".toList, fun _ => true⟩

/-- C3 counterexample: when unlock and mount succeed but the `chown` fails,
`mount_container` reports the failure through its `except` handler — the
"Mount failed" error — not as a degraded success, even though the device is
in fact mounted (the mapper's mount record exists in the resulting state). -/
theorem chown_failure_reported_as_mount_failure :
    (mount_container chownFailEnv ⟨[], []⟩).2.1
      = .mountFailed (Cmd.chownR "/run/media/alice/v".toList)
    ∧ mapperName "v".toList ∈ (mount_container chownFailEnv ⟨[], []⟩).2.2.mounts := by
  exact ⟨by decide, by decide⟩

/-- C3 amended: when unlock and mount succeed, the mount path parses to a
non-empty directory, and the ownership change fails, the flow reports the
generic "Mount failed" error (the same `except` branch as a mount-command
failure) while the observed state has in fact reached Mounted (mapper open
and mounted); and `chown` is attempted only when the parsed mount path is
non-empty and confirmed to be a directory. -/
theorem chown_failure_amended :
    (∀ (env : MountEnv) (st : SysState) (cfile pw p : Str),
        env.verifyOk = true →
        env.containerFiles.isEmpty = false →
        env.choice = some cfile →
        mapperName (splitextBase cfile) ∉ detect_open_mappers st →
        env.passInput = some pw →
        env.confirmed = true →
        env.ok (Cmd.cryptOpen (splitextBase cfile)) = true →
        env.ok (Cmd.udisksMount (mapperName (splitextBase cfile))) = true →
        parseMountPath (pyStrip env.mountStdout) = some p →
        p.isEmpty = false →
        env.isDir p = true →
        env.ok (Cmd.chownR p) = false →
        (mount_container env st).2.1 = .mountFailed (Cmd.chownR p)
          ∧ mapperName (splitextBase cfile) ∈ (mount_container env st).2.2.mounts
          ∧ mapperName (splitextBase cfile) ∈ (mount_container env st).2.2.mapperEntries)
    ∧ (∀ (env : MountEnv) (st : SysState) (p : Str),
        Cmd.chownR p ∈ (mount_container env st).1 →
        parseMountPath (pyStrip env.mountStdout) = some p
          ∧ p.isEmpty = false ∧ env.isDir p = true) := by
  constructor
  · intro env st cfile pw p hv hcf hch hdet hpass hconf hok1 hok2 hparse hpne hdir hok3
    unfold mount_container
    rw [hv, hcf, hch, hpass]
    simp [hdet, hconf, hok1, hok2, hparse, hpne, hdir, hok3, mem_insertNew_self]
  · intro env st p h
    unfold mount_container at h
    repeat' split at h
    all_goals try simp_all
    all_goals repeat' split at h
    all_goals simp_all

/-- C3 witness: the amended statement evaluated on the concrete chown-failing
mount of `v.img`. -/
theorem chown_failure_amended_witness :
    (mount_container chownFailEnv ⟨[], []⟩).2.1
        = .mountFailed (Cmd.chownR "/run/media/alice/v".toList)
      ∧ mapperName (splitextBase "v.img".toList)
          ∈ (mount_container chownFailEnv ⟨[], []⟩).2.2.mounts
      ∧ mapperName (splitextBase "v.img".toList)
          ∈ (mount_container chownFailEnv ⟨[], []⟩).2.2.mapperEntries :=
  chown_failure_amended.1 chownFailEnv ⟨[], []⟩ "v.img".toList "pw".toList
    "/run/media/alice/v".toList rfl rfl rfl (by decide) rfl rfl (by decide)
    (by decide) (by decide) (by decide) rfl (by decide)

/-- C4: in `unmount_container` the close runs only when the unmount command
has succeeded — the command trace of any execution that attempts
`cryptsetup close` is exactly unmount-then-close with the unmount successful —
while the sweep loops attempt unmount and close unconditionally and
independently for every mapper in their list, whatever the oracle says. -/
theorem close_only_after_unmount :
    (∀ (env : UnmountEnv) (st : SysState) (m : Str),
        Cmd.cryptClose m ∈ (unmount_container env st).1 →
        env.choice = some m ∧ env.ok (Cmd.udisksUnmount m) = true
          ∧ (unmount_container env st).1
              = [Cmd.udisksUnmount m, Cmd.cryptClose m])
    ∧ (∀ (pre : Str) (leftover : List Str) (ok : Cmd → Bool) (st : SysState),
        (sweep pre leftover ok st).1
          = leftover.flatMap fun m => [Cmd.udisksUnmount m, Cmd.cryptClose m]) := by
  constructor
  · intro env st m h
    by_cases hE : (detect_open_mappers st).isEmpty
    · simp [unmount_container, hE] at h
    · rw [Bool.not_eq_true] at hE
      cases hch : env.choice with
      | none => simp [unmount_container, hE, hch] at h
      | some mc =>
        by_cases hcf : env.confirmed
        · by_cases hu : env.ok (Cmd.udisksUnmount mc)
          · have htr : (unmount_container env st).1
                = [Cmd.udisksUnmount mc, Cmd.cryptClose mc] := by
              by_cases hcl : env.ok (Cmd.cryptClose mc)
              · simp [unmount_container, hE, hch, hcf, hu, hcl]
              · rw [Bool.not_eq_true] at hcl
                simp [unmount_container, hE, hch, hcf, hu, hcl]
            rw [htr] at h
            simp at h
            subst h
            exact ⟨rfl, hu, htr⟩
          · rw [Bool.not_eq_true] at hu
            simp [unmount_container, hE, hch, hcf, hu] at h
        · rw [Bool.not_eq_true] at hcf
          simp [unmount_container, hE, hch, hcf] at h
  · exact fun pre leftover ok st => sweep_cmds_eq pre ok leftover st

/-- C4 witness: a concrete execution of `unmount_container` that attempts the
close — the oracle that succeeds everywhere, one open mapper. -/
theorem close_only_after_unmount_witness :
    (⟨some "a_mapper".toList, true, fun _ => true⟩ : UnmountEnv).choice
        = some "a_mapper".toList
    ∧ (⟨some "a_mapper".toList, true, fun _ => true⟩ : UnmountEnv).ok
        (Cmd.udisksUnmount "a_mapper".toList) = true
    ∧ (unmount_container ⟨some "a_mapper".toList, true, fun _ => true⟩
        ⟨["a_mapper".toList], []⟩).1
        = [Cmd.udisksUnmount "a_mapper".toList, Cmd.cryptClose "a_mapper".toList] :=
  close_only_after_unmount.1 _ _ _ (by decide)

/-- C7: from a state in which the container's mapper is absent (no open
mapper, no mount record), a fully successful `mount_container` followed by a
fully successful `unmount_container` of that mapper returns the observed
system state exactly to its pre-open value. -/
theorem open_close_round_trip
    (menv : MountEnv) (uenv : UnmountEnv) (st : SysState) (cfile pw p : Str)
    (hv : menv.verifyOk = true)
    (hcf : menv.containerFiles.isEmpty = false)
    (hch : menv.choice = some cfile)
    (hm1 : mapperName (splitextBase cfile) ∉ st.mapperEntries)
    (hm2 : mapperName (splitextBase cfile) ∉ st.mounts)
    (hpass : menv.passInput = some pw)
    (hconf : menv.confirmed = true)
    (hok1 : menv.ok (Cmd.cryptOpen (splitextBase cfile)) = true)
    (hok2 : menv.ok (Cmd.udisksMount (mapperName (splitextBase cfile))) = true)
    (hparse : parseMountPath (pyStrip menv.mountStdout) = some p)
    (hpne : p.isEmpty = false)
    (hdir : menv.isDir p = true)
    (hok3 : menv.ok (Cmd.chownR p) = true)
    (huch : uenv.choice = some (mapperName (splitextBase cfile)))
    (huconf : uenv.confirmed = true)
    (huok1 : uenv.ok (Cmd.udisksUnmount (mapperName (splitextBase cfile))) = true)
    (huok2 : uenv.ok (Cmd.cryptClose (mapperName (splitextBase cfile))) = true) :
    (mount_container menv st).2.1 = .mountedChowned p
    ∧ (unmount_container uenv (mount_container menv st).2.2).2.1 = .success
    ∧ (unmount_container uenv (mount_container menv st).2.2).2.2 = st := by
  have hdet : mapperName (splitextBase cfile) ∉ detect_open_mappers st :=
    fun hmem => hm1 (List.mem_of_mem_filter hmem)
  have hmnt : mount_container menv st
      = ([Cmd.cryptOpen (splitextBase cfile),
          Cmd.udisksMount (mapperName (splitextBase cfile)), Cmd.chownR p],
         .mountedChowned p,
         ⟨mapperName (splitextBase cfile) :: st.mapperEntries,
          mapperName (splitextBase cfile) :: st.mounts⟩) := by
    unfold mount_container
    rw [hv, hcf, hch, hpass]
    simp [hdet, hconf, hok1, hok2, hparse, hpne, hdir, hok3,
      insertNew_of_not_mem hm1, insertNew_of_not_mem hm2]
  have hdet' : detect_open_mappers
        ⟨mapperName (splitextBase cfile) :: st.mapperEntries,
         mapperName (splitextBase cfile) :: st.mounts⟩
      = mapperName (splitextBase cfile)
          :: (st.mapperEntries.filter
              fun x => sufMapper.isSuffixOf x && x != controlName) := by
    unfold detect_open_mappers
    refine List.filter_cons_of_pos ?_
    rw [Bool.and_eq_true]
    exact ⟨sufMapper_isSuffixOf_mapperName _,
      bne_iff_ne.mpr (mapperName_ne_control _)⟩
  have hum : unmount_container uenv
        ⟨mapperName (splitextBase cfile) :: st.mapperEntries,
         mapperName (splitextBase cfile) :: st.mounts⟩
      = ([Cmd.udisksUnmount (mapperName (splitextBase cfile)),
          Cmd.cryptClose (mapperName (splitextBase cfile))], .success, st) := by
    unfold unmount_container
    rw [huch, hdet']
    simp [huconf, huok1, huok2, List.erase_cons_head]
  refine ⟨?_, ?_, ?_⟩
  · rw [hmnt]
  · simp only [hmnt]
    rw [hum]
  · simp only [hmnt]
    rw [hum]

/-- C7 witness: the round trip evaluated on a concrete container `v.img`
starting from the empty observed state. -/
theorem open_close_round_trip_witness :
    (mount_container
        ⟨true, ["v.img".toList], some "v.img".toList, some "pw".toList, true,
         fun _ => true,
         "Mounted /dev/mapper/v_mapper at /run/media/alice/v.".toList,
         fun _ => true⟩ ⟨[], []⟩).2.1
      = .mountedChowned "/run/media/alice/v".toList
    ∧ (unmount_container ⟨some "v_mapper".toList, true, fun _ => true⟩
        (mount_container
          ⟨true, ["v.img".toList], some "v.img".toList, some "pw".toList, true,
           fun _ => true,
           "Mounted /dev/mapper/v_mapper at /run/media/alice/v.".toList,
           fun _ => true⟩ ⟨[], []⟩).2.2).2.1 = .success
    ∧ (unmount_container ⟨some "v_mapper".toList, true, fun _ => true⟩
        (mount_container
          ⟨true, ["v.img".toList], some "v.img".toList, some "pw".toList, true,
           fun _ => true,
           "Mounted /dev/mapper/v_mapper at /run/media/alice/v.".toList,
           fun _ => true⟩ ⟨[], []⟩).2.2).2.2 = ⟨[], []⟩ :=
  open_close_round_trip _ _ _ _ "pw".toList _ rfl rfl rfl (by decide) (by decide)
    rfl rfl (by decide) (by decide) (by decide) (by decide) (by decide)
    (by decide) (by decide) rfl (by decide) (by decide)

/-- Events of `_verify_container_dir_on_partition` when the container
directory does not exist: the `os.makedirs` attempt comes first, and the
mount-table read happens only afterwards (and only if the creation
succeeded). -/
lemma verify_events_of_not_exists (env : VerifyEnv) (h : env.dirExists = false) :
    (verify_container_dir_on_partition env).1
      = .mkdirContainerDir :: (if env.mkdirOk then [.readMountTable] else []) := by
  unfold verify_container_dir_on_partition
  rw [h]
  by_cases hk : env.mkdirOk
  · by_cases he : (mountpointsOf env.procMounts env.partDev).isEmpty
    · simp [hk, he]
    · rw [Bool.not_eq_true] at he
      simp [hk, he]
  · rw [Bool.not_eq_true] at hk
    simp [hk]

/-- C10: `_verify_container_dir_on_partition` is not side-effect-free — when
the configured container directory does not exist it attempts to create it
(`os.makedirs`, i.e. with parents) as its very first action, before the
mount-table check; this happens as the first event of the whole
`create_container` flow, hence before any user confirmation; and the check
returns `False` exactly when directory creation fails, the partition device
appears in no mount-table entry, or the directory's resolved real path lies
under none of that device's mount points. -/
theorem verify_dir_side_effects :
    (∀ env : VerifyEnv, env.dirExists = false →
        (verify_container_dir_on_partition env).1
          = .mkdirContainerDir :: (if env.mkdirOk then [.readMountTable] else []))
    ∧ (∀ (cenv : CreateEnv) (st : SysState), cenv.verify.dirExists = false →
        (create_container cenv st).1.head? = some .mkdirContainerDir)
    ∧ (∀ env : VerifyEnv,
        (verify_container_dir_on_partition env).2 = false ↔
          (env.dirExists = false ∧ env.mkdirOk = false)
          ∨ mountpointsOf env.procMounts env.partDev = []
          ∨ ((mountpointsOf env.procMounts env.partDev).all
              fun mnt => !commonpathEq mnt env.realCdir) = true) := by
  refine ⟨fun env h => verify_events_of_not_exists env h, ?_, ?_⟩
  · intro cenv st h
    have ht := verify_events_of_not_exists cenv.verify h
    simp only [create_container]
    repeat' split
    all_goals simp [ht]
  · intro env
    unfold verify_container_dir_on_partition
    by_cases hd : env.dirExists
    · by_cases he : (mountpointsOf env.procMounts env.partDev).isEmpty
      · simp [hd, he, List.isEmpty_iff.mp he]
      · have hne : mountpointsOf env.procMounts env.partDev ≠ [] := by
          simpa [List.isEmpty_iff] using he
        rw [Bool.not_eq_true] at he
        simp [hd, he, hne, List.any_eq_false, List.all_eq_true]
    · rw [Bool.not_eq_true] at hd
      by_cases hk : env.mkdirOk
      · by_cases he : (mountpointsOf env.procMounts env.partDev).isEmpty
        · simp [hd, hk, he, List.isEmpty_iff.mp he]
        · have hne : mountpointsOf env.procMounts env.partDev ≠ [] := by
            simpa [List.isEmpty_iff] using he
          rw [Bool.not_eq_true] at he
          simp [hd, hk, he, hne, List.any_eq_false, List.all_eq_true]
      · rw [Bool.not_eq_true] at hk
        simp [hd, hk]

/-- C10 witness: with a missing directory and a succeeding `os.makedirs`, the
verification's first event is the directory creation, then the mount-table
read; and the creation is the first event of the whole create flow. -/
theorem verify_dir_side_effects_witness :
    (verify_container_dir_on_partition ⟨false, true, [], [], []⟩).1
      = .mkdirContainerDir
          :: (if (⟨false, true, [], [], []⟩ : VerifyEnv).mkdirOk
              then [.readMountTable] else [])
    ∧ (create_container
        ⟨⟨false, true, [], [], []⟩, none, none, none, false, none, false,
         fun _ => false⟩ ⟨[], []⟩).1.head? = some .mkdirContainerDir :=
  ⟨verify_dir_side_effects.1 ⟨false, true, [], [], []⟩ rfl,
   verify_dir_side_effects.2.1 _ _ rfl⟩

end CipherDock
